import Mathlib

/-!
Shallow embedding of the SignalScope 5G coverage simulator core
(`src/5G.py`): the propagation model `signal_strength_model` (lines 31-69),
the grid builder `create_grid` (lines 72-80), the field evaluator
`simulate_signal_strength` (lines 83-101), and the statistics and CDF
computations of the analysis report (lines 692-724), together with
theorems settling the specification claims.

Floating-point quantities are modelled as real numbers and `log10` is the
real base-10 logarithm. The flattened fields consumed by the statistics
code are modelled as lists of `Option` values, `none` standing for a
non-finite (NaN) entry (a NaN compares false against every threshold,
exactly as in the source), over an arbitrary linear ordered field so that
the same definitions can be evaluated on concrete rational inputs.
-/

namespace SignalScope

/-- Base-10 logarithm on the reals, the model of `np.log10`. -/
noncomputable def log10 (x : ℝ) : ℝ := Real.log x / Real.log 10

/-- Environment-specific additional loss of `signal_strength_model`,
`src/5G.py` lines 39-65: `distance_km` (floored to `1e-6` when it is
exactly zero), then per environment string a clutter factor plus a
path-loss exponent factor, the total clamped to be nonnegative. -/
noncomputable def additional_loss (distance frequency_mhz : ℝ)
    (environment_type : String) : ℝ :=
  let distance_km := if distance / 1000 = 0 then 0.000001 else distance / 1000
  let raw :=
    if environment_type = "urban_dense" then
      let clutter_factor := 20 + 0.1 * (frequency_mhz / 1000) * log10 (distance + 1)
      let path_loss_exponent_factor := 18 * log10 (distance_km + 0.001)
      clutter_factor + path_loss_exponent_factor
    else if environment_type = "urban_macro" then
      let clutter_factor := 15 + 0.05 * (frequency_mhz / 1000) * log10 (distance + 1)
      let path_loss_exponent_factor := 12 * log10 (distance_km + 0.001)
      clutter_factor + path_loss_exponent_factor
    else if environment_type = "suburban" then
      let clutter_factor := (10 : ℝ)
      let path_loss_exponent_factor := 8 * log10 (distance_km + 0.001)
      clutter_factor + path_loss_exponent_factor
    else if environment_type = "rural_macro" then
      let clutter_factor := (3 : ℝ)
      let path_loss_exponent_factor := 5 * log10 (distance_km + 0.001)
      clutter_factor + path_loss_exponent_factor
    else 0
  max 0 raw

/-- The propagation model `signal_strength_model`, `src/5G.py` lines 31-69:
sentinel `transmit_power_dbm - 200` for `distance ≤ 0`, sentinel
`transmit_power_dbm - 300` for `frequency_mhz ≤ 0`, otherwise EIRP minus
free-space path loss and the clamped additional loss. -/
noncomputable def signal_strength_model
    (distance transmit_power_dbm frequency_mhz antenna_gain_dbi : ℝ)
    (environment_type : String) : ℝ :=
  if distance ≤ 0 then transmit_power_dbm - 200
  else if frequency_mhz ≤ 0 then transmit_power_dbm - 300
  else
    let fspl_m := 20 * log10 distance + 20 * log10 frequency_mhz - 27.55
    let path_loss := fspl_m + additional_loss distance frequency_mhz environment_type
    let eirp_dbm := transmit_power_dbm + antenna_gain_dbi
    eirp_dbm - path_loss

/-- Modelled from the words of claim C1 (which follows spec section 4.1):
the claimed urban_dense result, whose exponent term uses
`max(distance_m/1000, 0.001)` where the source adds `0.001` to
`distance_km`. Kept separate so the two can be compared. -/
noncomputable def claimed_power_urban_dense
    (distance transmit_power_dbm frequency_mhz antenna_gain_dbi : ℝ) : ℝ :=
  (transmit_power_dbm + antenna_gain_dbi) -
    ((20 * log10 distance + 20 * log10 frequency_mhz - 27.55) +
      max 0 ((20 + 0.1 * (frequency_mhz / 1000) * log10 (distance + 1)) +
        18 * log10 (max (distance / 1000) 0.001)))

/-- One-dimensional `np.arange(start, stop, step)` for positive step:
the values `start + i * step` for `0 ≤ i < ⌈(stop - start) / step⌉`. -/
noncomputable def arange (start stop step : ℝ) : List ℝ :=
  (List.range (⌈(stop - start) / step⌉).toNat).map fun i => start + (i : ℝ) * step

/-- `np.meshgrid x y`: the pair of coordinate matrices of shape
(length of y) × (length of x), y varying by row and x by column. -/
def meshgrid (x y : List ℝ) : List (List ℝ) × List (List ℝ) :=
  (y.map fun _ => x, y.map fun yi => x.map fun _ => yi)

/-- The grid builder `create_grid`, `src/5G.py` lines 72-80: rejects a
non-positive step, builds inclusive-range coordinate sequences, collapses
a degenerate axis to a single value, and returns the coordinate mesh. -/
noncomputable def create_grid (x_min x_max y_min y_max step : ℝ) :
    Except String (List (List ℝ) × List (List ℝ)) :=
  if step ≤ 0 then Except.error "网格步长必须为正数。"
  else
    let x := arange x_min (x_max + step) step
    let y := arange y_min (y_max + step) step
    let x := if x_min ≥ x_max then [x_min] else x
    let y := if y_min ≥ y_max then [y_min] else y
    Except.ok (meshgrid x y)

/-- The field evaluator `simulate_signal_strength`, `src/5G.py` lines
83-101: Euclidean distances from the base station to every grid cell
(with the source's special branch for a 1 × 1 grid), then the propagation
model applied to every distance. -/
noncomputable def simulate_signal_strength (xx yy : List (List ℝ))
    (bs_x bs_y transmit_power_dbm frequency_mhz antenna_gain_dbi : ℝ)
    (environment_type : String) : List (List ℝ) :=
  let distances :=
    match xx, yy with
    | [[x0]], [[y0]] => [[Real.sqrt ((x0 - bs_x) ^ 2 + (y0 - bs_y) ^ 2)]]
    | xs, ys =>
        List.zipWith (fun rx ry =>
          List.zipWith (fun x y => Real.sqrt ((x - bs_x) ^ 2 + (y - bs_y) ^ 2)) rx ry) xs ys
  distances.map fun row =>
    row.map fun d =>
      signal_strength_model d transmit_power_dbm frequency_mhz antenna_gain_dbi environment_type

/-- Entry of a matrix (list of rows) at row i, column j, when present. -/
def matrix_get? (m : List (List ℝ)) (i j : ℕ) : Option ℝ :=
  (m.get? i).bind fun row => row.get? j

/-- The five quality-tier counts of `_generate_analysis_report`,
`src/5G.py` line 697, in report order (excellent, good, fair, marginal,
poor). A `none` (NaN) entry compares false against every threshold and is
counted in no tier, as in the source. -/
def cat_counts (α : Type) [LinearOrderedField α] (field : List (Option α)) : List ℕ :=
  [field.countP fun e => (e.map fun v => decide (-80 ≤ v)).getD false,
    field.countP fun e => (e.map fun v => decide (-95 ≤ v ∧ v < -80)).getD false,
    field.countP fun e => (e.map fun v => decide (-105 ≤ v ∧ v < -95)).getD false,
    field.countP fun e => (e.map fun v => decide (-115 ≤ v ∧ v < -105)).getD false,
    field.countP fun e => (e.map fun v => decide (v < -115)).getD false]

/-- The percentage denominator of `_generate_analysis_report`,
`src/5G.py` line 698: the total number of entries of the field, finite or
not, falling back to 1 when the field is empty. -/
def total_points (α : Type) [LinearOrderedField α] (field : List (Option α)) : ℕ :=
  if 0 < field.length then field.length else 1

/-- The five tier percentages of `_generate_analysis_report`,
`src/5G.py` line 701: each count divided by `total_points`, times 100. -/
def tier_percentages (α : Type) [LinearOrderedField α] (field : List (Option α)) : List α :=
  (cat_counts α field).map fun c => ((c : α) / (total_points α field : α)) * 100

/-- Modelled from the words of claim C3 (which follows spec section 4.4):
the claimed percentage denominator, the number of finite entries, falling
back to 1 when there are none. Kept separate so it can be compared with
`total_points`. -/
def spec_total_valid_points (α : Type) [LinearOrderedField α]
    (field : List (Option α)) : ℕ :=
  if 0 < (field.filterMap id).length then (field.filterMap id).length else 1

/-- The tier percentages as claim C3 describes them: counts divided by
`spec_total_valid_points`, times 100. -/
def spec_tier_percentages (α : Type) [LinearOrderedField α]
    (field : List (Option α)) : List α :=
  (cat_counts α field).map fun c => ((c : α) / (spec_total_valid_points α field : α)) * 100

/-- The finite entries of a flattened field, in order:
`data_flat[~np.isnan(data_flat)]` of `_plot_cdf_results`, line 711. -/
def data_flat (α : Type) [LinearOrderedField α] (field : List (Option α)) : List α :=
  field.filterMap id

/-- The finite entries sorted ascending: `np.sort(data_flat)` of
`_plot_cdf_results`, line 713. -/
def sorted_data (α : Type) [LinearOrderedField α] (field : List (Option α)) : List α :=
  List.insertionSort (· ≤ ·) (data_flat α field)

/-- The empirical CDF probabilities of `_plot_cdf_results`, line 713:
`np.arange(n) / (n - 1 if n > 1 else 1)`. -/
def cdf_yvals (α : Type) [LinearOrderedField α] (n : ℕ) : List α :=
  (List.range n).map fun r : ℕ => (r : α) / (if 1 < n then (n : α) - 1 else 1)

theorem log_ten_pos : 0 < Real.log 10 := Real.log_pos (by norm_num)

theorem log10_nonneg {x : ℝ} (h : 1 ≤ x) : 0 ≤ log10 x :=
  div_nonneg (Real.log_nonneg h) log_ten_pos.le

theorem log10_pos {x : ℝ} (h : 1 < x) : 0 < log10 x :=
  div_pos (Real.log_pos h) log_ten_pos

theorem log10_le_log10 {x y : ℝ} (hx : 0 < x) (h : x ≤ y) : log10 x ≤ log10 y :=
  (div_le_div_iff_of_pos_right log_ten_pos).mpr
    ((Real.log_le_log_iff hx (lt_of_lt_of_le hx h)).mpr h)

theorem log10_one : log10 1 = 0 := by simp [log10]

/-- For a positive distance the `distance_km == 0` floor never fires, so the
additional loss is the per-environment formula in `distance / 1000 + 0.001`. -/
theorem additional_loss_of_pos (distance frequency_mhz : ℝ) (environment_type : String)
    (hd : 0 < distance) :
    additional_loss distance frequency_mhz environment_type =
      max 0 (
        if environment_type = "urban_dense" then
          (20 + 0.1 * (frequency_mhz / 1000) * log10 (distance + 1)) +
            18 * log10 (distance / 1000 + 0.001)
        else if environment_type = "urban_macro" then
          (15 + 0.05 * (frequency_mhz / 1000) * log10 (distance + 1)) +
            12 * log10 (distance / 1000 + 0.001)
        else if environment_type = "suburban" then
          10 + 8 * log10 (distance / 1000 + 0.001)
        else if environment_type = "rural_macro" then
          3 + 5 * log10 (distance / 1000 + 0.001)
        else 0) := by
  have h1000 : distance / 1000 ≠ 0 := by positivity
  simp only [additional_loss, if_neg h1000]

/-- For positive distance and frequency neither sentinel fires and the model
is EIRP minus free-space path loss minus the clamped additional loss. -/
theorem signal_strength_model_of_pos
    (distance transmit_power_dbm frequency_mhz antenna_gain_dbi : ℝ)
    (environment_type : String) (hd : 0 < distance) (hf : 0 < frequency_mhz) :
    signal_strength_model distance transmit_power_dbm frequency_mhz antenna_gain_dbi
        environment_type =
      (transmit_power_dbm + antenna_gain_dbi) -
        ((20 * log10 distance + 20 * log10 frequency_mhz - 27.55) +
          additional_loss distance frequency_mhz environment_type) := by
  simp only [signal_strength_model, if_neg (not_le.mpr hd), if_neg (not_le.mpr hf)]

/-- C4: for every distance ≤ 0 the model returns exactly
`transmit_power_dbm - 200`, independent of every other parameter; being a
total function of its real arguments it never fails. -/
theorem power_at_nonpos_distance
    (distance transmit_power_dbm frequency_mhz antenna_gain_dbi : ℝ)
    (environment_type : String) (hd : distance ≤ 0) :
    signal_strength_model distance transmit_power_dbm frequency_mhz antenna_gain_dbi
        environment_type = transmit_power_dbm - 200 := by
  simp only [signal_strength_model, if_pos hd]

theorem power_at_nonpos_distance_witness :
    (-5 : ℝ) ≤ 0 ∧
      signal_strength_model (-5) 30 2600 15 "urban_dense" = 30 - 200 :=
  ⟨by norm_num, power_at_nonpos_distance (-5) 30 2600 15 "urban_dense" (by norm_num)⟩

/-- C2 counterexample: with distance 0 (≤ 0) and frequency -1 (≤ 0) the
model returns the distance sentinel `30 - 200 = -170`, not the claimed
frequency sentinel `30 - 300 = -270`: the distance check runs first. -/
theorem freq_sentinel_counterexample :
    signal_strength_model 0 30 (-1) 15 "urban_dense" ≠ 30 - 300 := by
  have h : signal_strength_model 0 30 (-1) 15 "urban_dense" = 30 - 200 := by
    norm_num [signal_strength_model]
  rw [h]; norm_num

/-- C2 amended: for every input with frequency ≤ 0 and distance > 0 the
model returns exactly `transmit_power_dbm - 300`, independent of the
remaining parameters. -/
theorem power_at_nonpos_frequency
    (distance transmit_power_dbm frequency_mhz antenna_gain_dbi : ℝ)
    (environment_type : String) (hd : 0 < distance) (hf : frequency_mhz ≤ 0) :
    signal_strength_model distance transmit_power_dbm frequency_mhz antenna_gain_dbi
        environment_type = transmit_power_dbm - 300 := by
  simp only [signal_strength_model, if_neg (not_le.mpr hd), if_pos hf]

theorem power_at_nonpos_frequency_witness :
    (0 : ℝ) < 5 ∧ (0 : ℝ) ≤ 0 ∧
      signal_strength_model 5 30 0 15 "suburban" = 30 - 300 :=
  ⟨by norm_num, le_rfl, power_at_nonpos_frequency 5 30 0 15 "suburban" (by norm_num) le_rfl⟩

/-- C10: for positive distance and frequency, an environment string that is
none of the four categories leaves the additional loss at 0, so the model
returns the pure free-space result, without failing. -/
theorem power_at_unknown_env
    (distance transmit_power_dbm frequency_mhz antenna_gain_dbi : ℝ)
    (environment_type : String) (hd : 0 < distance) (hf : 0 < frequency_mhz)
    (h1 : environment_type ≠ "urban_dense") (h2 : environment_type ≠ "urban_macro")
    (h3 : environment_type ≠ "suburban") (h4 : environment_type ≠ "rural_macro") :
    signal_strength_model distance transmit_power_dbm frequency_mhz antenna_gain_dbi
        environment_type =
      (transmit_power_dbm + antenna_gain_dbi) -
        (20 * log10 distance + 20 * log10 frequency_mhz - 27.55) := by
  rw [signal_strength_model_of_pos _ _ _ _ _ hd hf, additional_loss_of_pos _ _ _ hd,
    if_neg h1, if_neg h2, if_neg h3, if_neg h4]
  simp

theorem power_at_unknown_env_witness :
    signal_strength_model 2 30 1000 15 "indoor" =
      (30 + 15) - (20 * log10 2 + 20 * log10 1000 - 27.55) :=
  power_at_unknown_env 2 30 1000 15 "indoor" (by norm_num) (by norm_num)
    (by decide) (by decide) (by decide) (by decide)

/-- C1 counterexample: at distance 1000 m, frequency 2600 MHz, power 30 dBm,
gain 15 dBi in urban_dense, the code's exponent term is
`18·log10(1 + 0.001)` while the claim's is `18·log10(max(1, 0.001)) = 0`,
so the two results differ. -/
theorem urban_dense_formula_counterexample :
    signal_strength_model 1000 30 2600 15 "urban_dense" ≠
      claimed_power_urban_dense 1000 30 2600 15 := by
  have hM : (0 : ℝ) ≤ log10 (1000 + 1) := log10_nonneg (by norm_num)
  have he : (0 : ℝ) < log10 ((1000 : ℝ) / 1000 + 0.001) := log10_pos (by norm_num)
  have hprod : (0 : ℝ) ≤ 0.1 * ((2600 : ℝ) / 1000) * log10 (1000 + 1) :=
    mul_nonneg (by norm_num) hM
  have hC : (0 : ℝ) ≤ (20 + 0.1 * ((2600 : ℝ) / 1000) * log10 (1000 + 1)) := by linarith
  have hCe : (0 : ℝ) ≤ (20 + 0.1 * ((2600 : ℝ) / 1000) * log10 (1000 + 1)) +
      18 * log10 ((1000 : ℝ) / 1000 + 0.001) := by linarith
  rw [signal_strength_model_of_pos 1000 30 2600 15 "urban_dense" (by norm_num) (by norm_num),
    additional_loss_of_pos 1000 2600 "urban_dense" (by norm_num), if_pos rfl]
  unfold claimed_power_urban_dense
  have hmax1 : max ((1000 : ℝ) / 1000) 0.001 = (1000 : ℝ) / 1000 := by
    rw [max_eq_left]; norm_num
  have hlog1 : log10 ((1000 : ℝ) / 1000) = 0 := by
    rw [show (1000 : ℝ) / 1000 = 1 by norm_num, log10_one]
  rw [hmax1, hlog1, max_eq_right hCe, mul_zero, add_zero, max_eq_right hC]
  intro heq
  nlinarith [he]

/-- C1 amended: for every distance > 0, frequency > 0 in urban_dense the
model returns `(tx + gain) - (FSPL + max(0, clutter + exponent_term))`
with `clutter = 20 + 0.1·(f/1000)·log10(d+1)` and
`exponent_term = 18·log10(d/1000 + 0.001)` (the code adds 0.001 to
`distance_km` instead of taking the max with 0.001). -/
theorem power_at_urban_dense
    (distance transmit_power_dbm frequency_mhz antenna_gain_dbi : ℝ)
    (hd : 0 < distance) (hf : 0 < frequency_mhz) :
    signal_strength_model distance transmit_power_dbm frequency_mhz antenna_gain_dbi
        "urban_dense" =
      (transmit_power_dbm + antenna_gain_dbi) -
        ((20 * log10 distance + 20 * log10 frequency_mhz - 27.55) +
          max 0 ((20 + 0.1 * (frequency_mhz / 1000) * log10 (distance + 1)) +
            18 * log10 (distance / 1000 + 0.001))) := by
  rw [signal_strength_model_of_pos _ _ _ _ _ hd hf,
    additional_loss_of_pos _ _ _ hd, if_pos rfl]

theorem power_at_urban_dense_witness :
    (0 : ℝ) < 1000 ∧ (0 : ℝ) < 2600 ∧
      signal_strength_model 1000 30 2600 15 "urban_dense" =
        (30 + 15) -
          ((20 * log10 1000 + 20 * log10 2600 - 27.55) +
            max 0 ((20 + 0.1 * (2600 / 1000) * log10 (1000 + 1)) +
              18 * log10 (1000 / 1000 + 0.001))) :=
  ⟨by norm_num, by norm_num,
    power_at_urban_dense 1000 30 2600 15 (by norm_num) (by norm_num)⟩

/-- The clamped additional loss is monotone non-decreasing in distance for
positive distance and frequency, in every environment. -/
theorem additional_loss_mono (d1 d2 frequency_mhz : ℝ) (environment_type : String)
    (h1 : 0 < d1) (h12 : d1 ≤ d2) (hf : 0 < frequency_mhz) :
    additional_loss d1 frequency_mhz environment_type ≤
      additional_loss d2 frequency_mhz environment_type := by
  have h2 : 0 < d2 := lt_of_lt_of_le h1 h12
  rw [additional_loss_of_pos _ _ _ h1, additional_loss_of_pos _ _ _ h2]
  apply max_le_max le_rfl
  have hdiv : d1 / 1000 ≤ d2 / 1000 :=
    (div_le_div_iff_of_pos_right (by norm_num)).mpr h12
  have hdiv1 : (0 : ℝ) < d1 / 1000 := div_pos h1 (by norm_num)
  have hM : log10 (d1 + 1) ≤ log10 (d2 + 1) := log10_le_log10 (by linarith) (by linarith)
  have hL : log10 (d1 / 1000 + 0.001) ≤ log10 (d2 / 1000 + 0.001) :=
    log10_le_log10 (by linarith) (by linarith)
  have hB1 : (0 : ℝ) ≤ 0.1 * (frequency_mhz / 1000) := by positivity
  have hB2 : (0 : ℝ) ≤ 0.05 * (frequency_mhz / 1000) := by positivity
  split_ifs <;>
    nlinarith [mul_le_mul_of_nonneg_left hM hB1, mul_le_mul_of_nonneg_left hM hB2]

/-- C6: for fixed power, gain, positive frequency and environment, the model
is monotonically non-increasing in distance over positive distances. -/
theorem power_at_antitone_in_distance
    (d1 d2 transmit_power_dbm frequency_mhz antenna_gain_dbi : ℝ)
    (environment_type : String) (h1 : 0 < d1) (h12 : d1 ≤ d2) (hf : 0 < frequency_mhz) :
    signal_strength_model d2 transmit_power_dbm frequency_mhz antenna_gain_dbi
        environment_type ≤
      signal_strength_model d1 transmit_power_dbm frequency_mhz antenna_gain_dbi
        environment_type := by
  have h2 : 0 < d2 := lt_of_lt_of_le h1 h12
  rw [signal_strength_model_of_pos _ _ _ _ _ h1 hf,
    signal_strength_model_of_pos _ _ _ _ _ h2 hf]
  have hfspl : log10 d1 ≤ log10 d2 := log10_le_log10 h1 h12
  have hadd := additional_loss_mono d1 d2 frequency_mhz environment_type h1 h12 hf
  linarith

theorem power_at_antitone_in_distance_witness :
    (0 : ℝ) < 100 ∧ (100 : ℝ) ≤ 250 ∧ (0 : ℝ) < 2600 ∧
      signal_strength_model 250 30 2600 15 "urban_dense" ≤
        signal_strength_model 100 30 2600 15 "urban_dense" :=
  ⟨by norm_num, by norm_num, by norm_num,
    power_at_antitone_in_distance 100 250 30 2600 15 "urban_dense"
      (by norm_num) (by norm_num) (by norm_num)⟩

/-- C9: at a fixed positive distance and frequency where the clamped
additional loss is positive (already for the rural_macro category, which
forces the others positive too), the additional losses are ordered
rural_macro ≤ suburban ≤ urban_macro ≤ urban_dense. -/
theorem additional_loss_env_ordering (distance frequency_mhz : ℝ)
    (hd : 0 < distance) (hf : 0 < frequency_mhz)
    (hrural : 0 < additional_loss distance frequency_mhz "rural_macro") :
    additional_loss distance frequency_mhz "rural_macro" ≤
        additional_loss distance frequency_mhz "suburban" ∧
      additional_loss distance frequency_mhz "suburban" ≤
        additional_loss distance frequency_mhz "urban_macro" ∧
      additional_loss distance frequency_mhz "urban_macro" ≤
        additional_loss distance frequency_mhz "urban_dense" := by
  rw [additional_loss_of_pos distance frequency_mhz "rural_macro" hd,
    if_neg (by decide), if_neg (by decide), if_neg (by decide), if_pos rfl] at hrural ⊢
  rw [additional_loss_of_pos distance frequency_mhz "suburban" hd,
    if_neg (by decide), if_neg (by decide), if_pos rfl]
  rw [additional_loss_of_pos distance frequency_mhz "urban_macro" hd,
    if_neg (by decide), if_pos rfl]
  rw [additional_loss_of_pos distance frequency_mhz "urban_dense" hd, if_pos rfl]
  have hrural' : 0 < 3 + 5 * log10 (distance / 1000 + 0.001) :=
    (lt_max_iff.mp hrural).resolve_left (lt_irrefl 0)
  have hM : (0 : ℝ) ≤ log10 (distance + 1) := log10_nonneg (by linarith)
  have hf1000 : (0 : ℝ) ≤ frequency_mhz / 1000 := le_of_lt (div_pos hf (by norm_num))
  have hp1 : (0 : ℝ) ≤ 0.05 * (frequency_mhz / 1000) * log10 (distance + 1) :=
    mul_nonneg (mul_nonneg (by norm_num) hf1000) hM
  have hp2 : (0 : ℝ) ≤ 0.1 * (frequency_mhz / 1000) * log10 (distance + 1) :=
    mul_nonneg (mul_nonneg (by norm_num) hf1000) hM
  refine ⟨max_le_max le_rfl (by nlinarith), max_le_max le_rfl (by nlinarith),
    max_le_max le_rfl (by nlinarith)⟩

theorem additional_loss_env_ordering_witness :
    0 < additional_loss 1000 2600 "rural_macro" ∧
      (additional_loss 1000 2600 "rural_macro" ≤ additional_loss 1000 2600 "suburban" ∧
        additional_loss 1000 2600 "suburban" ≤ additional_loss 1000 2600 "urban_macro" ∧
        additional_loss 1000 2600 "urban_macro" ≤ additional_loss 1000 2600 "urban_dense") := by
  have hr : 0 < additional_loss 1000 2600 "rural_macro" := by
    rw [additional_loss_of_pos 1000 2600 "rural_macro" (by norm_num),
      if_neg (by decide), if_neg (by decide), if_neg (by decide), if_pos rfl]
    have hl : (0 : ℝ) < log10 ((1000 : ℝ) / 1000 + 0.001) := log10_pos (by norm_num)
    exact lt_max_of_lt_right (by linarith)
  exact ⟨hr, additional_loss_env_ordering 1000 2600 (by norm_num) (by norm_num) hr⟩

/-- C5: grid construction succeeds exactly when the step is positive; with
step ≤ 0 it fails up front with the invalid-parameter error before any
field evaluation can happen (`create_grid` never touches the field). -/
theorem create_grid_ok_iff (x_min x_max y_min y_max step : ℝ) :
    (∃ g, create_grid x_min x_max y_min y_max step = Except.ok g) ↔ 0 < step := by
  unfold create_grid
  by_cases h : step ≤ 0
  · rw [if_pos h]
    simp [not_lt.mpr h]
  · rw [if_neg h]
    simp [not_le.mp h]

/-- The 1 × 1 special branch of the field evaluator computes the same value
as the general element-wise formula, so the evaluator is one fused map. -/
theorem simulate_signal_strength_eq_zipWith (xx yy : List (List ℝ))
    (bs_x bs_y transmit_power_dbm frequency_mhz antenna_gain_dbi : ℝ)
    (environment_type : String) :
    simulate_signal_strength xx yy bs_x bs_y transmit_power_dbm frequency_mhz
        antenna_gain_dbi environment_type =
      List.zipWith (fun rx ry => List.zipWith (fun x y =>
        signal_strength_model (Real.sqrt ((x - bs_x) ^ 2 + (y - bs_y) ^ 2))
          transmit_power_dbm frequency_mhz antenna_gain_dbi environment_type) rx ry) xx yy := by
  unfold simulate_signal_strength
  split
  · simp
  · simp [List.map_zipWith]

/-- C7: on a grid of matching shape the evaluated field has exactly the
grid's shape (same number of rows, rows of the same lengths), and each
entry is the model applied to the Euclidean distance from the base station
to that cell; a 1 × 1 grid is covered like any other. Values are reals, so
no invalid entry can be introduced. -/
theorem evaluate_field_spec (xx yy : List (List ℝ))
    (bs_x bs_y transmit_power_dbm frequency_mhz antenna_gain_dbi : ℝ)
    (environment_type : String)
    (hshape : List.Forall₂ (fun rx ry => rx.length = ry.length) xx yy) :
    (simulate_signal_strength xx yy bs_x bs_y transmit_power_dbm frequency_mhz
        antenna_gain_dbi environment_type).length = xx.length ∧
      List.Forall₂ (fun sr xr => sr.length = xr.length)
        (simulate_signal_strength xx yy bs_x bs_y transmit_power_dbm frequency_mhz
          antenna_gain_dbi environment_type) xx ∧
      ∀ i j x y, matrix_get? xx i j = some x → matrix_get? yy i j = some y →
        matrix_get? (simulate_signal_strength xx yy bs_x bs_y transmit_power_dbm
            frequency_mhz antenna_gain_dbi environment_type) i j =
          some (signal_strength_model (Real.sqrt ((x - bs_x) ^ 2 + (y - bs_y) ^ 2))
            transmit_power_dbm frequency_mhz antenna_gain_dbi environment_type) := by
  rw [simulate_signal_strength_eq_zipWith]
  refine ⟨?_, ?_, ?_⟩
  · rw [List.length_zipWith, hshape.length_eq, min_self]
  · induction hshape with
    | nil => exact List.Forall₂.nil
    | cons h _ ih =>
        exact List.Forall₂.cons (by rw [List.length_zipWith, h, min_self]) ih
  · intro i j x y hx hy
    obtain ⟨rx, hrx, hxj⟩ : ∃ rx, xx.get? i = some rx ∧ rx.get? j = some x := by
      cases h : xx.get? i with
      | none => rw [matrix_get?, h] at hx; cases hx
      | some rx =>
          refine ⟨rx, rfl, ?_⟩
          rw [matrix_get?, h] at hx
          exact hx
    obtain ⟨ry, hry, hyj⟩ : ∃ ry, yy.get? i = some ry ∧ ry.get? j = some y := by
      cases h : yy.get? i with
      | none => rw [matrix_get?, h] at hy; cases hy
      | some ry =>
          refine ⟨ry, rfl, ?_⟩
          rw [matrix_get?, h] at hy
          exact hy
    rw [matrix_get?, List.get?_zipWith', hrx, hry]
    have hxj' : rx[j]? = some x := by rw [← List.get?_eq_getElem?]; exact hxj
    have hyj' : ry[j]? = some y := by rw [← List.get?_eq_getElem?]; exact hyj
    simp [List.getElem?_zipWith', hxj', hyj']

theorem evaluate_field_spec_witness :
    matrix_get? (simulate_signal_strength [[3]] [[4]] 0 0 30 2600 15 "urban_dense") 0 0 =
      some (signal_strength_model (Real.sqrt (((3 : ℝ) - 0) ^ 2 + ((4 : ℝ) - 0) ^ 2))
        30 2600 15 "urban_dense") :=
  (evaluate_field_spec [[3]] [[4]] 0 0 30 2600 15 "urban_dense"
    (List.Forall₂.cons rfl List.Forall₂.nil)).2.2 0 0 3 4 rfl rfl

/-- The five quality tiers partition the finite entries: their counts sum
to the number of finite entries of the field. -/
theorem cat_counts_sum (α : Type) [LinearOrderedField α] (field : List (Option α)) :
    (cat_counts α field).sum = (field.filterMap id).length := by
  induction field with
  | nil => rfl
  | cons e t ih =>
    simp [cat_counts, List.countP_cons] at ih
    cases e with
    | none =>
        simp [cat_counts, List.countP_cons]
        omega
    | some v =>
        rcases le_or_lt (-80 : α) v with hA | hA
        · have h1 : ¬(v < -80) := not_lt.mpr hA
          have h2 : ¬(v < -95) := fun h => by linarith
          have h3 : ¬(v < -105) := fun h => by linarith
          have h4 : ¬(v < -115) := fun h => by linarith
          simp [cat_counts, List.countP_cons, hA, h1, h2, h3, h4]
          omega
        · rcases le_or_lt (-95 : α) v with hB | hB
          · have h0 : ¬(-80 ≤ v) := not_le.mpr hA
            have h2 : ¬(v < -95) := not_lt.mpr hB
            have h3 : ¬(v < -105) := fun h => by linarith
            have h4 : ¬(v < -115) := fun h => by linarith
            simp [cat_counts, List.countP_cons, h0, hA, hB, h2, h3, h4]
            omega
          · rcases le_or_lt (-105 : α) v with hC | hC
            · have h0 : ¬(-80 ≤ v) := not_le.mpr (by linarith)
              have h1 : ¬(-95 ≤ v) := not_le.mpr hB
              have h3 : ¬(v < -105) := not_lt.mpr hC
              have h4 : ¬(v < -115) := fun h => by linarith
              simp [cat_counts, List.countP_cons, h0, h1, hB, hC, h3, h4]
              omega
            · rcases le_or_lt (-115 : α) v with hD | hD
              · have h0 : ¬(-80 ≤ v) := not_le.mpr (by linarith)
                have h1 : ¬(-95 ≤ v) := not_le.mpr (by linarith)
                have h2 : ¬(-105 ≤ v) := not_le.mpr hC
                have h4 : ¬(v < -115) := not_lt.mpr hD
                simp [cat_counts, List.countP_cons, h0, h1, h2, hC, hD, h4]
                omega
              · have h0 : ¬(-80 ≤ v) := not_le.mpr (by linarith)
                have h1 : ¬(-95 ≤ v) := not_le.mpr (by linarith)
                have h2 : ¬(-105 ≤ v) := not_le.mpr (by linarith)
                have h3 : ¬(-115 ≤ v) := not_le.mpr hD
                simp [cat_counts, List.countP_cons, h0, h1, h2, h3, hD]
                omega

/-- C3 counterexample: on the field `[NaN, -85]` the code divides by the
total entry count 2, not by the single finite entry, so the good tier gets
50 % where the claim demands 100 %, and the five percentages sum to 50 %,
not 100 %, although a finite value exists. -/
theorem tier_percentages_spec_counterexample :
    tier_percentages ℚ [none, some (-85)] ≠ spec_tier_percentages ℚ [none, some (-85)] ∧
      (tier_percentages ℚ [none, some (-85)]).sum ≠ 100 := by
  constructor
  · simp [tier_percentages, spec_tier_percentages, cat_counts, total_points,
      spec_total_valid_points, List.countP_cons]
    norm_num
  · simp [tier_percentages, cat_counts, total_points, List.countP_cons]
    norm_num

/-- C3 amended: each tier percentage is its count divided by the total
number of entries of the field (finite or not) times 100, so for a
nonempty field the five percentages sum to `finite_count / total_count ·
100`; they sum to 100 % exactly when every entry is finite, and fall short
when NaN entries are present. -/
theorem tier_percentages_sum (α : Type) [LinearOrderedField α]
    (field : List (Option α)) (h : field ≠ []) :
    (tier_percentages α field).sum =
        ((field.filterMap id).length : α) / (field.length : α) * 100 ∧
      ((field.filterMap id).length = field.length →
        (tier_percentages α field).sum = 100) := by
  have hlen : 0 < field.length := List.length_pos.mpr h
  have hlen' : ((field.length : α)) ≠ 0 := by
    exact_mod_cast Nat.pos_iff_ne_zero.mp hlen
  have htp : total_points α field = field.length := if_pos hlen
  have hcs := cat_counts_sum α field
  have hmain : (tier_percentages α field).sum =
      ((field.filterMap id).length : α) / (field.length : α) * 100 := by
    simp only [tier_percentages, htp, cat_counts, List.map_cons, List.map_nil,
      List.sum_cons, List.sum_nil] at *
    rw [← hcs]
    push_cast
    field_simp
    ring
  refine ⟨hmain, fun heq => ?_⟩
  rw [hmain, heq, div_self hlen']
  norm_num

theorem tier_percentages_sum_witness :
    (([some (-85), some (-100)] : List (Option ℚ)) ≠ []) ∧
      ((tier_percentages ℚ [some (-85), some (-100)]).sum =
          ((([some (-85), some (-100)] : List (Option ℚ)).filterMap id).length : ℚ) /
            (([some (-85), some (-100)] : List (Option ℚ)).length : ℚ) * 100 ∧
        ((([some (-85), some (-100)] : List (Option ℚ)).filterMap id).length =
            ([some (-85), some (-100)] : List (Option ℚ)).length →
          (tier_percentages ℚ [some (-85), some (-100)]).sum = 100)) :=
  ⟨by decide, tier_percentages_sum ℚ [some (-85), some (-100)] (by decide)⟩

/-- The CDF probability sequence is non-decreasing. -/
theorem cdf_yvals_sorted (α : Type) [LinearOrderedField α] (n : ℕ) :
    List.Sorted (· ≤ ·) (cdf_yvals α n) := by
  unfold cdf_yvals
  have hden : (0 : α) < (if 1 < n then (n : α) - 1 else 1) := by
    split_ifs with h
    · have h' : (1 : α) < (n : α) := by exact_mod_cast h
      linarith
    · norm_num
  refine List.Pairwise.map _ ?_ (List.sorted_lt_range n)
  intro a b hab
  exact (div_le_div_iff_of_pos_right hden).mpr (by exact_mod_cast hab.le)

/-- C8: the CDF sorts the finite field values ascending (the sorted list is
a sorted permutation of the finite entries), the probability at 0-indexed
rank r is r/(N-1) for N > 1 and the single probability is 0 for N = 1, the
probability sequence is non-decreasing, and for N > 1 the smallest value
has probability 0 and the largest probability 1. -/
theorem cdf_spec (α : Type) [LinearOrderedField α] (field : List (Option α)) :
    List.Sorted (· ≤ ·) (sorted_data α field) ∧
      List.Perm (sorted_data α field) (data_flat α field) ∧
      List.Sorted (· ≤ ·) (cdf_yvals α (sorted_data α field).length) ∧
      ((sorted_data α field).length = 1 →
        cdf_yvals α (sorted_data α field).length = [0]) ∧
      (∀ r, 1 < (sorted_data α field).length → r < (sorted_data α field).length →
        (cdf_yvals α (sorted_data α field).length).get? r =
          some ((r : α) / (((sorted_data α field).length : α) - 1))) ∧
      (1 < (sorted_data α field).length →
        (cdf_yvals α (sorted_data α field).length).get? 0 = some 0 ∧
        (cdf_yvals α (sorted_data α field).length).get?
            ((sorted_data α field).length - 1) = some 1) := by
  have hformula : ∀ r, 1 < (sorted_data α field).length →
      r < (sorted_data α field).length →
      (cdf_yvals α (sorted_data α field).length).get? r =
        some ((r : α) / (((sorted_data α field).length : α) - 1)) := by
    intro r h1 hr
    unfold cdf_yvals
    rw [List.get?_eq_getElem?]
    simp [List.getElem?_range, hr, if_pos h1]
  refine ⟨List.sorted_insertionSort _ _, List.perm_insertionSort _ _,
    cdf_yvals_sorted α _, ?_, hformula, ?_⟩
  · intro h1
    rw [h1]
    norm_num [cdf_yvals, List.range_succ]
  · intro h1
    have hne : (((sorted_data α field).length : α) - 1) ≠ 0 := by
      have h' : (1 : α) < ((sorted_data α field).length : α) := by exact_mod_cast h1
      intro hz
      rw [sub_eq_zero] at hz
      exact absurd hz.symm (ne_of_lt h')
    refine ⟨?_, ?_⟩
    · rw [hformula 0 h1 (by omega)]
      norm_num
    · rw [hformula ((sorted_data α field).length - 1) h1 (by omega)]
      have hcast : (((sorted_data α field).length - 1 : ℕ) : α) =
          ((sorted_data α field).length : α) - 1 := by
        have h' : (1 : ℕ) ≤ (sorted_data α field).length := by omega
        push_cast [h']
        ring
      rw [hcast, div_self hne]

theorem cdf_spec_witness :
    (cdf_yvals ℚ (sorted_data ℚ [some 3, none, some 1, some 2]).length).get? 1 =
      some ((1 : ℚ) / (((sorted_data ℚ [some 3, none, some 1, some 2]).length : ℚ) - 1)) :=
  (cdf_spec ℚ [some 3, none, some 1, some 2]).2.2.2.2.1 1 (by decide) (by decide)

end SignalScope
